import Mathlib

/-!
Verification of the command-safety classification engine and the
idle-detection command-completion protocol of the `skill-ssh` repository
(`lib/command-pattern-loader.js` and `lib/interactive-session.js`).

The JavaScript is shallowly embedded: `RegExp` values become an executable
regular-expression AST with Brzozowski-derivative matching (JS `test`
semantics, i.e. unanchored search, with `^`/`$` handled via begin/end
sentinels), the pattern-loader singleton becomes a `LoaderState` record with
pure state-passing functions, and the session / completion-detector logic
becomes explicit state machines over `Nat` timestamps (milliseconds).
-/

/-- Input symbols for the matcher: a begin-of-input sentinel, an end-of-input
sentinel, and ordinary characters.  The sentinels let `^` and `$` be treated
as ordinary consuming symbols while `RegExp.test`-style unanchored search is
reduced to a full match with wildcard padding. -/
inductive SChar where
  | sos
  | eoi
  | ch (c : Char)
deriving DecidableEq

/-- Atomic symbols of the regular-expression dialect used by the repository
patterns: literal characters, `.`, `\s`, `\d`, `\w`, character classes,
the `^` and `$` anchors, and an internal wildcard (used only for the
search padding; it also matches the sentinels). -/
inductive RSym where
  | lit (c : Char)
  | dot
  | space
  | digit
  | word
  | cls (neg : Bool) (ranges : List (Char × Char))
  | bos
  | eos
  | wild
deriving DecidableEq

/-- Regular expressions: empty string, the empty language, an atomic symbol,
concatenation, alternation, Kleene star.  `+` and `?` are desugared. -/
inductive Rx where
  | eps
  | fail
  | sym (k : RSym)
  | seq (r1 r2 : Rx)
  | alt (r1 r2 : Rx)
  | star (r : Rx)
deriving DecidableEq

/-- JavaScript `\s` on the character range relevant here. -/
def isJsSpace (c : Char) : Bool :=
  c == ' ' || c == '\t' || c == '\n' || c == '\r' || c == '\x0b' || c == '\x0c' || c == '\xa0'

/-- JavaScript `\d`. -/
def isJsDigit (c : Char) : Bool :=
  decide ('0' ≤ c) && decide (c ≤ '9')

/-- JavaScript `\w`. -/
def isJsWord (c : Char) : Bool :=
  isJsDigit c || (decide ('a' ≤ c) && decide (c ≤ 'z')) ||
    (decide ('A' ≤ c) && decide (c ≤ 'Z')) || c == '_'

/-- Membership of a character in a list of character ranges. -/
def clsHit (ranges : List (Char × Char)) (d : Char) : Bool :=
  ranges.any (fun r => decide (r.1 ≤ d) && decide (d ≤ r.2))

/-- Whether one atomic symbol accepts one input symbol, under the
case-insensitive flag `ci` (the JS `i` flag, modelled by lower-casing). -/
def symMatch (ci : Bool) : RSym → SChar → Bool
  | .wild, _ => true
  | .bos, .sos => true
  | .eos, .eoi => true
  | .lit c, .ch d => if ci then c.toLower == d.toLower else c == d
  | .dot, .ch d => !(d == '\n' || d == '\r' || d == '\u2028' || d == '\u2029')
  | .space, .ch d => isJsSpace d
  | .digit, .ch d => isJsDigit d
  | .word, .ch d => isJsWord d
  | .cls neg rs, .ch d =>
      let hit := clsHit rs d || (ci && (clsHit rs d.toLower || clsHit rs d.toUpper))
      if neg then !hit else hit
  | _, _ => false

/-- Whether a regular expression accepts the empty word. -/
def Rx.nullable : Rx → Bool
  | .eps => true
  | .fail => false
  | .sym _ => false
  | .seq r1 r2 => r1.nullable && r2.nullable
  | .alt r1 r2 => r1.nullable || r2.nullable
  | .star _ => true

/-- Smart alternation: drops `fail` branches and duplicate branches so that
iterated derivatives stay small. -/
def Rx.mkAlt : Rx → Rx → Rx
  | .fail, r => r
  | r, .fail => r
  | r1, r2 => if r1 = r2 then r1 else .alt r1 r2

/-- Smart concatenation: absorbs `fail` and drops `eps` factors. -/
def Rx.mkSeq : Rx → Rx → Rx
  | .fail, _ => .fail
  | _, .fail => .fail
  | .eps, r => r
  | r, .eps => r
  | r1, r2 => .seq r1 r2

/-- Brzozowski derivative of a regular expression by one input symbol. -/
def Rx.deriv (ci : Bool) : Rx → SChar → Rx
  | .eps, _ => .fail
  | .fail, _ => .fail
  | .sym k, a => if symMatch ci k a then .eps else .fail
  | .seq r1 r2, a =>
      if r1.nullable then Rx.mkAlt (Rx.mkSeq (r1.deriv ci a) r2) (r2.deriv ci a)
      else Rx.mkSeq (r1.deriv ci a) r2
  | .alt r1 r2, a => Rx.mkAlt (r1.deriv ci a) (r2.deriv ci a)
  | .star r, a => Rx.mkSeq (r.deriv ci a) (.star r)

/-- Full match of a symbol list by iterated derivatives. -/
def Rx.matchesL (ci : Bool) (r : Rx) (l : List SChar) : Bool :=
  (l.foldl (fun s a => s.deriv ci a) r).nullable

/-- A string framed by the begin/end sentinels. -/
def encodeInput (s : String) : List SChar :=
  SChar.sos :: (s.toList.map SChar.ch ++ [SChar.eoi])

/-- JavaScript `RegExp.prototype.test` semantics: the pattern may match any
substring; `^`/`$` inside the pattern consume the corresponding sentinel. -/
def searchRx (ci : Bool) (r : Rx) (s : String) : Bool :=
  Rx.matchesL ci (Rx.seq (.star (.sym .wild)) (Rx.seq r (.star (.sym .wild)))) (encodeInput s)

/-- Items of a character class body, as closed by `]`.  Escaped characters
inside a class are taken literally; `a-b` denotes a range; a `-` directly
before `]` is a literal. -/
def parseClsItems : List Char → Option (List (Char × Char) × List Char)
  | [] => none
  | ']' :: t => some ([], t)
  | '\\' :: c :: t =>
      match parseClsItems t with
      | some (is, rest) => some ((c, c) :: is, rest)
      | none => none
  | ['\\'] => none
  | c1 :: '-' :: ']' :: t => some ([(c1, c1), ('-', '-')], t)
  | c1 :: '-' :: c2 :: t =>
      match parseClsItems t with
      | some (is, rest) => some ((c1, c2) :: is, rest)
      | none => none
  | c :: t =>
      match parseClsItems t with
      | some (is, rest) => some ((c, c) :: is, rest)
      | none => none

/-- A character class starting right after `[`. -/
def parseCls (cs : List Char) : Option (Rx × List Char) :=
  match cs with
  | '^' :: t =>
      match parseClsItems t with
      | some (is, rest) => some (.sym (.cls true is), rest)
      | none => none
  | _ =>
      match parseClsItems cs with
      | some (is, rest) => some (.sym (.cls false is), rest)
      | none => none

/-- The symbol denoted by an escape sequence `\c`.  `\s`, `\d`, `\w`, `\n`,
`\t`, `\r` are special; every other escaped character stands for itself
(which is how the repository patterns use `\/`, `\|`, `\(`, `\)`, braces). -/
def escSym (c : Char) : RSym :=
  if c == 's' then .space
  else if c == 'd' then .digit
  else if c == 'w' then .word
  else if c == 'n' then .lit '\n'
  else if c == 't' then .lit '\t'
  else if c == 'r' then .lit '\r'
  else .lit c

/-- One atom of the pattern grammar; `recAlt` parses a parenthesised group
body (tied back to the alternation level by the caller). -/
def parseAtom (recAlt : List Char → Option (Rx × List Char)) :
    List Char → Option (Rx × List Char)
  | [] => none
  | '^' :: t => some (.sym .bos, t)
  | '$' :: t => some (.sym .eos, t)
  | '.' :: t => some (.sym .dot, t)
  | '(' :: t =>
      match recAlt t with
      | some (r, ')' :: t2) => some (r, t2)
      | _ => none
  | '[' :: t => parseCls t
  | '\\' :: c :: t => some (.sym (escSym c), t)
  | ['\\'] => none
  | '*' :: _ => none
  | '+' :: _ => none
  | '?' :: _ => none
  | ')' :: _ => none
  | '|' :: _ => none
  | c :: t => some (.sym (.lit c), t)

/-- Fuel-indexed recursive-descent parser for the JS-regex dialect used by
this repository.  `mode` 0 parses an alternation, 1 a sequence (up to `)`,
`|` or the end), anything else a single quantified term.  The recursion is
structural on the fuel so the kernel can evaluate it. -/
def parseRx : Nat → Nat → List Char → Option (Rx × List Char)
  | 0, _, _ => none
  | fuel + 1, 0, cs =>
      match parseRx fuel 1 cs with
      | none => none
      | some (r1, rest) =>
        match rest with
        | '|' :: rest2 =>
            match parseRx fuel 0 rest2 with
            | none => none
            | some (r2, rest3) => some (.alt r1 r2, rest3)
        | _ => some (r1, rest)
  | fuel + 1, 1, cs =>
      match cs with
      | [] => some (.eps, [])
      | ')' :: _ => some (.eps, cs)
      | '|' :: _ => some (.eps, cs)
      | _ =>
        match parseRx fuel 2 cs with
        | none => none
        | some (r1, rest) =>
          match parseRx fuel 1 rest with
          | none => none
          | some (r2, rest2) => some (.seq r1 r2, rest2)
  | fuel + 1, _, cs =>
      match parseAtom (parseRx fuel 0) cs with
      | none => none
      | some (r, rest) =>
        match rest with
        | '*' :: t => some (.star r, t)
        | '+' :: t => some (.seq r (.star r), t)
        | '?' :: t => some (.alt r .eps, t)
        | _ => some (r, rest)

/-- Compilation of a pattern source string, i.e. the fallible part of
`new RegExp(pattern, flags)`: `some` is a successful compile, `none` the
`SyntaxError` caught by the loader.  The fuel bound strictly dominates the
recursion depth, which consumes at least one character every four levels. -/
def parseRegex (src : String) : Option Rx :=
  let cs := src.toList
  match parseRx (4 * cs.length + 8) 0 cs with
  | some (r, []) => some r
  | _ => none

/-- Concatenation of the literal characters of `s` (a regex matching exactly
`s`), used to transcribe the compiled default pattern literals. -/
def rstr (s : String) : Rx :=
  s.toList.foldr (fun c r => Rx.seq (.sym (.lit c)) r) .eps

/-- The regex `\s+`. -/
def sp1 : Rx := .seq (.sym .space) (.star (.sym .space))

/-- The regex `\s*`. -/
def sp0 : Rx := .star (.sym .space)

/-- The regex `.*`. -/
def dotStar : Rx := .star (.sym .dot)

/-- A raw pattern entry as it appears in the configuration document
(`{name, pattern, description, severity, enabled, examples}`; `examples` is
informational and not modelled).  An absent `severity` field is modelled by
the empty string, matching the JS falsiness used at `addPattern` time. -/
structure RawPattern where
  name : String
  pattern : String
  description : String
  severity : String
  enabled : Bool
deriving DecidableEq

/-- A compiled pattern held by the loader: `src` is the regex source text,
`ci` whether it was compiled with the `i` flag, `ast` the compiled regex. -/
structure CompiledPattern where
  name : String
  src : String
  ci : Bool
  ast : Rx
  description : String
  severity : String
deriving DecidableEq

/-- The loader settings object.  A JS settings object may omit fields, and
every use in the loader reads them with falsy defaults, so absent fields are
modelled as `false`. -/
structure PatternSettings where
  block_dangerous_by_default : Bool := false
  warn_on_suspicious : Bool := false
  log_blocked_commands : Bool := false
  case_sensitive : Bool := false
  allow_whitelist_override : Bool := false
deriving DecidableEq

/-- State of a `CommandPatternLoader` instance. -/
structure LoaderState where
  dangerousPatterns : List CompiledPattern
  suspiciousPatterns : List CompiledPattern
  whitelistedPatterns : List CompiledPattern
  settings : PatternSettings
deriving DecidableEq

/-- The state produced by the `CommandPatternLoader` constructor: empty
collections and an empty settings object. -/
def initLoaderState : LoaderState :=
  { dangerousPatterns := [], suspiciousPatterns := [], whitelistedPatterns := [],
    settings := {} }

/-- `RegExp.prototype.test` on a compiled pattern. -/
def regexTest (p : CompiledPattern) (command : String) : Bool :=
  searchRx p.ci p.ast command

/-- The compiled form built by `compilePatterns` (severity copied as-is). -/
def mkCompiled (settings : PatternSettings) (p : RawPattern) (ast : Rx) : CompiledPattern :=
  { name := p.name, src := p.pattern, ci := !settings.case_sensitive, ast := ast,
    description := p.description, severity := p.severity }

/-- `compilePatterns(defaultPatterns, customPatterns)`: concatenates the two
lists, skips disabled entries, compiles each with the `i` flag unless
`settings.case_sensitive` is set, and silently skips entries whose
expression does not compile.  Order of the input lists is preserved. -/
def compilePatterns (settings : PatternSettings)
    (defaultPatterns customPatterns : List RawPattern) : List CompiledPattern :=
  (defaultPatterns ++ customPatterns).filterMap (fun p =>
    if !p.enabled then none
    else
      match parseRegex p.pattern with
      | none => none
      | some ast => some (mkCompiled settings p ast))

/-- A parsed configuration document: the three category lists, the user
`custom_patterns` overlay lists, and the settings block. -/
structure ConfigDoc where
  dangerousPatterns : List RawPattern
  suspiciousPatterns : List RawPattern
  whitelistedPatterns : List RawPattern
  customDangerous : List RawPattern := []
  customSuspicious : List RawPattern := []
  customWhitelisted : List RawPattern := []
  settings : PatternSettings := {}

/-- The seven built-in default dangerous patterns of `loadDefaults`,
as compiled regex literals: no flags, hence `ci := false`.  Each `ast`
transcribes the JS literal under JS parsing rules; in particular the
fork-bomb literal `/^:(){ :|:& };:/` contains an unescaped `|`, so it is an
alternation whose left branch is `^:` followed by an empty group and the
literal text (brace, space, colon), and whose right branch is the literal
text `:& };:` anywhere in the string. -/
def defaultDangerousPatterns : List CompiledPattern :=
  [ { name := "delete_root_filesystem", src := "^rm\\s+-rf\\s+\\/$", ci := false,
      ast := .seq (.sym .bos) (.seq (rstr "rm") (.seq sp1 (.seq (rstr "-rf")
        (.seq sp1 (.seq (rstr "/") (.sym .eos)))))),
      description := "Delete root filesystem", severity := "critical" },
    { name := "disk_write_operations", src := "^dd\\s+if=.*of=\\/dev\\/sd", ci := false,
      ast := .seq (.sym .bos) (.seq (rstr "dd") (.seq sp1 (.seq (rstr "if=")
        (.seq dotStar (rstr "of=/dev/sd"))))),
      description := "Direct disk write operations", severity := "critical" },
    { name := "format_filesystem", src := "^mkfs", ci := false,
      ast := .seq (.sym .bos) (rstr "mkfs"),
      description := "Format filesystem commands", severity := "critical" },
    { name := "fork_bomb", src := "^:()\x7b :|:& \x7d;:", ci := false,
      ast := .alt (.seq (.sym .bos) (.seq (.sym (.lit ':')) (.seq .eps
        (.seq (.sym (.lit '\x7b')) (.seq (.sym (.lit ' ')) (.sym (.lit ':')))))))
        (rstr ":& \x7d;:"),
      description := "Fork bomb", severity := "critical" },
    { name := "chmod_777_root", src := "^chmod\\s+-R\\s+777\\s+\\/", ci := false,
      ast := .seq (.sym .bos) (.seq (rstr "chmod") (.seq sp1 (.seq (rstr "-R")
        (.seq sp1 (.seq (rstr "777") (.seq sp1 (rstr "/"))))))),
      description := "Recursive chmod 777 on root", severity := "critical" },
    { name := "curl_pipe_to_shell", src := "^curl.*\\|\\s*sh", ci := false,
      ast := .seq (.sym .bos) (.seq (rstr "curl") (.seq dotStar
        (.seq (.sym (.lit '|')) (.seq sp0 (rstr "sh"))))),
      description := "Download and execute via curl", severity := "high" },
    { name := "wget_pipe_to_shell", src := "^wget.*\\|\\s*sh", ci := false,
      ast := .seq (.sym .bos) (.seq (rstr "wget") (.seq dotStar
        (.seq (.sym (.lit '|')) (.seq sp0 (rstr "sh"))))),
      description := "Download and execute via wget", severity := "high" } ]

/-- The four built-in default suspicious patterns of `loadDefaults`. -/
def defaultSuspiciousPatterns : List CompiledPattern :=
  [ { name := "sudo_with_rm", src := "sudo\\s+rm", ci := false,
      ast := .seq (rstr "sudo") (.seq sp1 (rstr "rm")),
      description := "Using sudo with rm", severity := "medium" },
    { name := "chmod_777", src := "chmod\\s+777", ci := false,
      ast := .seq (rstr "chmod") (.seq sp1 (rstr "777")),
      description := "World-writable permissions", severity := "medium" },
    { name := "redirect_to_dev_null", src := ">\\s*\\/dev\\/null\\s+2>&1", ci := false,
      ast := .seq (rstr ">") (.seq sp0 (.seq (rstr "/dev/null") (.seq sp1 (rstr "2>&1")))),
      description := "Hiding command output", severity := "low" },
    { name := "base64_decode", src := "base64.*decode", ci := false,
      ast := .seq (rstr "base64") (.seq dotStar (rstr "decode")),
      description := "Base64 decoding", severity := "low" } ]

/-- `loadDefaults()`: installs the built-in pattern set and default settings
(fallback taken when the configuration source is missing or unparseable). -/
def loadDefaults (st : LoaderState) : LoaderState :=
  { st with
    dangerousPatterns := defaultDangerousPatterns,
    suspiciousPatterns := defaultSuspiciousPatterns,
    whitelistedPatterns := [],
    settings :=
      { block_dangerous_by_default := true, warn_on_suspicious := true,
        log_blocked_commands := true, case_sensitive := false,
        allow_whitelist_override := true } }

/-- `load()`: a missing or unparseable configuration source falls back to
`loadDefaults`; otherwise the three categories are compiled and the settings
block is stored.  The JS method assigns `this.settings` only AFTER the three
`compilePatterns` calls, so compilation consults the settings that were in
effect BEFORE this load (`st.settings`), not `doc.settings`. -/
def load (st : LoaderState) (source : Option ConfigDoc) : LoaderState :=
  match source with
  | none => loadDefaults st
  | some doc =>
      { dangerousPatterns := compilePatterns st.settings doc.dangerousPatterns doc.customDangerous,
        suspiciousPatterns := compilePatterns st.settings doc.suspiciousPatterns doc.customSuspicious,
        whitelistedPatterns := compilePatterns st.settings doc.whitelistedPatterns doc.customWhitelisted,
        settings := doc.settings }

/-- The process-wide singleton right after module initialisation with no
configuration file present: `patternLoader.load()` falling back to defaults. -/
def defaultRegistry : LoaderState := load initLoaderState none

/-- `isWhitelisted(command)`: `false` outright when `allow_whitelist_override`
is off; otherwise whether any whitelisted pattern matches. -/
def isWhitelisted (st : LoaderState) (command : String) : Bool :=
  if !st.settings.allow_whitelist_override then false
  else st.whitelistedPatterns.any (fun p => regexTest p command)

/-- `isDangerous(command)`: consults the whitelist first; otherwise scans the
whole dangerous collection in registration order and returns the flag
(`matches.length > 0`) together with every matching pattern. -/
def isDangerous (st : LoaderState) (command : String) : Bool × List CompiledPattern :=
  if isWhitelisted st command then (false, [])
  else
    let ms := st.dangerousPatterns.filter (fun p => regexTest p command)
    (!ms.isEmpty, ms)

/-- `isSuspicious(command)`: scans the whole suspicious collection in
registration order; no whitelist consultation. -/
def isSuspicious (st : LoaderState) (command : String) : Bool × List CompiledPattern :=
  let ms := st.suspiciousPatterns.filter (fun p => regexTest p command)
  (!ms.isEmpty, ms)

/-- The compiled form built by `addPattern` (severity defaulted to
`"medium"` via JS `||` when absent/empty). -/
def mkCompiledAdd (settings : PatternSettings) (p : RawPattern) (ast : Rx) : CompiledPattern :=
  { name := p.name, src := p.pattern, ci := !settings.case_sensitive, ast := ast,
    description := p.description,
    severity := if p.severity = "" then "medium" else p.severity }

/-- `addPattern(type, patternConfig)`: compiles first (a `SyntaxError` is
caught and reported as `false` with the state unmodified), then appends to
the collection named by `type`; an unknown `type` throws inside the same
`try`, which is also caught as `false` with the state unmodified. -/
def addPattern (st : LoaderState) (ty : String) (cfg : RawPattern) : Bool × LoaderState :=
  match parseRegex cfg.pattern with
  | none => (false, st)
  | some ast =>
      let cp := mkCompiledAdd st.settings cfg ast
      if ty = "dangerous" then
        (true, { st with dangerousPatterns := st.dangerousPatterns ++ [cp] })
      else if ty = "suspicious" then
        (true, { st with suspiciousPatterns := st.suspiciousPatterns ++ [cp] })
      else if ty = "whitelisted" then
        (true, { st with whitelistedPatterns := st.whitelistedPatterns ++ [cp] })
      else (false, st)

/-- A matched-pattern audit record inside a verdict. -/
structure MatchedPattern where
  name : String
  description : String
  severity : String
deriving DecidableEq

/-- The safety verdict produced by `analyzeCommand`. -/
structure Analysis where
  command : String
  safe : Bool
  dangerous : Bool
  suspicious : Bool
  whitelisted : Bool
  warnings : List String
  blockedReason : Option String
  matchedDangerous : List MatchedPattern
  matchedSuspicious : List MatchedPattern
deriving DecidableEq

/-- JS `String.prototype.toUpperCase` (character-wise upper-casing). -/
def strUpper (s : String) : String :=
  String.mk (s.toList.map Char.toUpper)

/-- One warning line: `[SEVERITY] description` with the severity uppercased. -/
def warnLine (p : CompiledPattern) : String :=
  "[" ++ strUpper p.severity ++ "] " ++ p.description

/-- Projection of a compiled pattern into a verdict audit record. -/
def toMatched (p : CompiledPattern) : MatchedPattern :=
  { name := p.name, description := p.description, severity := p.severity }

/-- `analyzeCommand(command)` of `InteractiveSSHSession`: starts from an
all-safe verdict; the dangerous branch is guarded by `&& !whitelisted`; the
suspicious branch is NOT whitelist-guarded and appends its warnings after
any dangerous warnings. -/
def analyzeCommand (reg : LoaderState) (command : String) : Analysis :=
  let wl := isWhitelisted reg command
  let dang := isDangerous reg command
  let susp := isSuspicious reg command
  let a0 : Analysis :=
    { command := command, safe := true, dangerous := false, suspicious := false,
      whitelisted := wl, warnings := [], blockedReason := none,
      matchedDangerous := [], matchedSuspicious := [] }
  let a1 :=
    if dang.1 && !wl then
      { a0 with
          dangerous := true, safe := false,
          blockedReason := some "Potentially destructive command detected",
          warnings := a0.warnings ++ dang.2.map warnLine,
          matchedDangerous := dang.2.map toMatched }
    else a0
  if susp.1 then
    { a1 with
        suspicious := true,
        warnings := a1.warnings ++ susp.2.map warnLine,
        matchedSuspicious := susp.2.map toMatched }
  else a1

/-- One entry of the session's command history. -/
structure HistoryEntry where
  command : String
  timestamp : Nat
  analysis : Analysis
  executed : Bool
deriving DecidableEq

/-- One entry of the session's diagnostic output buffer. -/
structure OutputChunk where
  kind : String
  data : String
  timestamp : Nat
deriving DecidableEq

/-- The mutable state of an `InteractiveSSHSession` relevant to command
execution. -/
structure SessionState where
  connected : Bool
  commandHistory : List HistoryEntry
  outputBuffer : List OutputChunk
  blockDangerousCommands : Bool
  requireConfirmation : Bool
deriving DecidableEq

/-- The session state right after the constructor runs. -/
def initSession : SessionState :=
  { connected := false, commandHistory := [], outputBuffer := [],
    blockDangerousCommands := true, requireConfirmation := true }

/-- Events emitted on the session during the synchronous phase of
`executeCommand`. -/
inductive SessionEvent where
  | blocked (command : String)
  | warning (command : String)
deriving DecidableEq

/-- Result of the synchronous phase of `executeCommand`. -/
structure StartResult where
  st : SessionState
  events : List SessionEvent
  written : List String
  error : Option String
deriving DecidableEq

/-- The synchronous phase of `executeCommand(command, options)` up to and
including the transport write: the not-connected check, the verdict, the
block decision (no history append on the blocked path, matching the code),
the warning event, the history append with `executed := true`, and the
write of `command + "\n"` to the transport stdin. -/
def executeCommandStart (reg : LoaderState) (st : SessionState) (command : String)
    (bypassSafety : Bool) (ts : Nat) : StartResult :=
  if !st.connected then
    { st := st,
      events := [],
      written := [],
      error := some "SSH session not connected" }
  else
    let analysis := analyzeCommand reg command
    if analysis.dangerous && st.blockDangerousCommands && !bypassSafety then
      { st := st,
        events := [SessionEvent.blocked command],
        written := [],
        error := some ("Command blocked: " ++ analysis.blockedReason.getD "null") }
    else
      let entry : HistoryEntry :=
        { command := command, timestamp := ts, analysis := analysis, executed := true }
      { st := { st with commandHistory := st.commandHistory ++ [entry] },
        events := if analysis.suspicious then [SessionEvent.warning command] else [],
        written := [command ++ "\n"],
        error := none }

/-- `getHistory`/`getOutput` both call `Array.prototype.slice(-limit)`:
for a positive `limit` this is the suffix of the last `limit` elements
(clamped to the whole list); for `limit = 0`, `-0` is `0` and the slice is
the whole list. -/
def jsSliceLast {α : Type} (l : List α) (limit : Nat) : List α :=
  if limit = 0 then l else l.drop (l.length - limit)

/-- `getHistory(limit = 50)`. -/
def getHistory (st : SessionState) (limit : Nat) : List HistoryEntry :=
  jsSliceLast st.commandHistory limit

/-- `getOutput(limit = 100)`. -/
def getOutput (st : SessionState) (limit : Nat) : List OutputChunk :=
  jsSliceLast st.outputBuffer limit

/-- The result record resolved by `executeCommand`'s completion logic
(command and verdict omitted; they are fixed over one in-flight command). -/
structure CmdResult where
  output : String
  duration : Nat
deriving DecidableEq

/-- The idle threshold hard-coded in `executeCommand` (milliseconds). -/
def idleThreshold : Nat := 500

/-- `options.timeout || 30000`: JS `||` treats `0` as falsy. -/
def resolveTimeout : Option Nat → Nat
  | none => 30000
  | some n => if n = 0 then 30000 else n

/-- State of the completion detector for one in-flight command.
`idleDeadline`/`maxDeadline` are the absolute firing times of the two
timers; `idleDeadline = none` means no idle timer is currently set;
`maxCancelled` records whether `clearTimeout` was ever invoked on the
ceiling timer (the code has no such call). -/
structure DetectorState where
  output : String
  completed : Bool
  idleDeadline : Option Nat
  maxDeadline : Nat
  maxCancelled : Bool
  listenerAttached : Bool
  startTime : Nat
deriving DecidableEq

/-- The state right after the command text is written and the promise body
has run: the chunk listener is attached and `setTimeout(..., timeout)` has
armed the ceiling timer.  NO idle timer exists yet — `idleTimer` is first
assigned inside `outputHandler`. -/
def armDetector (t0 : Nat) (timeout : Nat) : DetectorState :=
  { output := "", completed := false, idleDeadline := none,
    maxDeadline := t0 + timeout, maxCancelled := false,
    listenerAttached := true, startTime := t0 }

/-- `outputHandler(data)` at time `t`: only runs while the listener is
attached; appends the chunk and (re)sets the idle timer to `t + 500`. -/
def onChunk (st : DetectorState) (t : Nat) (data : String) : DetectorState :=
  if st.listenerAttached then
    { st with output := st.output ++ data, idleDeadline := some (t + idleThreshold) }
  else st

/-- `completeCommand()` at time `t`: a no-op once completed; otherwise sets
the completed flag, clears the idle timer, detaches the chunk listener and
produces the result.  The ceiling timer is left untouched. -/
def completeCommand (st : DetectorState) (t : Nat) : DetectorState × Option CmdResult :=
  if st.completed then (st, none)
  else
    ({ st with completed := true, idleDeadline := none, listenerAttached := false },
     some { output := st.output, duration := t - st.startTime })

/-- The earliest instant at which a pending timer callback will run, if any:
the idle timer when set, always racing the never-cancelled ceiling timer;
nothing once completed (both callbacks are guarded by the completed flag). -/
def nextDeadline (st : DetectorState) : Option Nat :=
  if st.completed then none
  else
    match st.idleDeadline with
    | some ti => some (min ti st.maxDeadline)
    | none => some st.maxDeadline

/-- Asynchronous events that can reach one in-flight command: a transport
chunk, the idle-timer callback, the ceiling-timer callback. -/
inductive DetEvent where
  | chunk (t : Nat) (data : String)
  | idleFire (t : Nat)
  | ceilingFire (t : Nat)
deriving DecidableEq

/-- One event against the detector.  Both timer callbacks are guarded by
`if (!commandCompleted)` in the source. -/
def detStep (st : DetectorState) (e : DetEvent) : DetectorState × Option CmdResult :=
  match e with
  | .chunk t d => (onChunk st t d, none)
  | .idleFire t => if st.completed then (st, none) else completeCommand st t
  | .ceilingFire t => if st.completed then (st, none) else completeCommand st t

/-- A whole event sequence against the detector, collecting every produced
(caller-visible) result. -/
def detRun : DetectorState → List DetEvent → DetectorState × List CmdResult
  | st, [] => (st, [])
  | st, e :: es =>
      let p := detStep st e
      let q := detRun p.1 es
      (q.1, p.2.toList ++ q.2)

/-- A whitelist entry used to exhibit the interaction between the whitelist
and the suspicious scan: it matches exactly `sudo rm /tmp/ok`, a command the
built-in `sudo_with_rm` suspicious pattern also matches. -/
def wlRawPattern : RawPattern :=
  { name := "safe_tmp_cleanup", pattern := "^sudo rm \\/tmp\\/ok$",
    description := "Approved cleanup", severity := "", enabled := true }

/-- The default registry with the whitelist entry added at runtime. -/
def wlRegistry : LoaderState := (addPattern defaultRegistry "whitelisted" wlRawPattern).2

/-- A connected session with the default policy toggles, as left by a
successful `connect()`. -/
def connectedSession : SessionState := { initSession with connected := true }

/-- The default dangerous pattern expressions exactly as the specification
lists them (spec section 6, "bit-exact list an implementation must
reproduce for parity"), for comparison against the code's literals. -/
def specDefaultDangerousSrcs : List String :=
  ["^rm\\s+-rf\\s+/$", "^dd\\s+if=.*of=/dev/sd", "^mkfs",
   "^:\\(\\)\\\x7b\\s*:\\|:&\\s*\\\x7d;:", "^chmod\\s+-R\\s+777\\s+/",
   "^curl.*\\|\\s*sh", "^wget.*\\|\\s*sh"]

/-- A configuration document that sets `case_sensitive: true` and carries a
single dangerous pattern, used to probe which settings compilation uses. -/
def csDoc : ConfigDoc :=
  { dangerousPatterns :=
      [{ name := "format_filesystem", pattern := "^mkfs",
         description := "Format filesystem commands", severity := "critical",
         enabled := true }],
    suspiciousPatterns := [], whitelistedPatterns := [],
    settings :=
      { block_dangerous_by_default := true, warn_on_suspicious := true,
        log_blocked_commands := true, case_sensitive := true,
        allow_whitelist_override := false } }

/-- A pattern whose expression does not compile (unbalanced group). -/
def badRawPattern : RawPattern :=
  { name := "bad", pattern := "(", description := "Unbalanced group",
    severity := "", enabled := true }

/-- A well-formed pattern for exercising successful `addPattern` calls. -/
def addRawPattern : RawPattern :=
  { name := "block_shutdown", pattern := "^shutdown",
    description := "Shutdown command", severity := "high", enabled := true }

/-- The compiled form of `^shutdown`. -/
def shutdownAst : Rx := .seq (.sym .bos) (rstr "shutdown")

/-- A detector that has already completed (arming then completion at 500). -/
def doneDetector : DetectorState := (completeCommand (armDetector 0 30000) 500).1

/-- A plain all-safe verdict for populating demonstration history entries. -/
def demoAnalysis : Analysis :=
  { command := "ls", safe := true, dangerous := false, suspicious := false,
    whitelisted := false, warnings := [], blockedReason := none,
    matchedDangerous := [], matchedSuspicious := [] }

/-- A session with three history entries and one buffered chunk, for
exercising the history/output getters on concrete data. -/
def demoSession : SessionState :=
  { connected := true,
    commandHistory :=
      [{ command := "whoami", timestamp := 1, analysis := demoAnalysis, executed := true },
       { command := "pwd", timestamp := 2, analysis := demoAnalysis, executed := true },
       { command := "df -h", timestamp := 3, analysis := demoAnalysis, executed := true }],
    outputBuffer := [{ kind := "stdout", data := "x", timestamp := 1 }],
    blockDangerousCommands := true, requireConfirmation := true }

/-- When the dangerous flag of a match query is false, its match list is
empty (the flag is defined as `matches.length > 0`). -/
theorem isDangerous_fst_false_snd {reg : LoaderState} {c : String}
    (h : (isDangerous reg c).1 = false) : (isDangerous reg c).2 = [] := by
  cases hw : isWhitelisted reg c <;> simp [isDangerous, hw] at h ⊢
  · simpa [List.isEmpty_iff] using h

/-- When the suspicious flag of a match query is false, its match list is
empty. -/
theorem isSuspicious_fst_false_snd {reg : LoaderState} {c : String}
    (h : (isSuspicious reg c).1 = false) : (isSuspicious reg c).2 = [] := by
  simp [isSuspicious] at h ⊢
  simpa [List.isEmpty_iff] using h

/-- The chunk handler never changes the completed flag. -/
theorem onChunk_completed (st : DetectorState) (t : Nat) (d : String) :
    (onChunk st t d).completed = st.completed := by
  unfold onChunk; split <;> rfl

/-- No detector event on a completed state produces a result, and the state
stays completed. -/
theorem detStep_no_result_of_completed (st : DetectorState) (e : DetEvent)
    (h : st.completed = true) :
    (detStep st e).2 = none ∧ (detStep st e).1.completed = true := by
  cases e with
  | chunk t d => exact ⟨rfl, by simpa [detStep, onChunk_completed] using h⟩
  | idleFire t => simp [detStep, h]
  | ceilingFire t => simp [detStep, h]

/-- A completed detector produces no results over any event sequence. -/
theorem detRun_completed_no_results (es : List DetEvent) :
    ∀ st : DetectorState, st.completed = true → (detRun st es).2 = [] := by
  induction es with
  | nil => intro st _; rfl
  | cons e es ih =>
      intro st h
      have hs := detStep_no_result_of_completed st e h
      simp [detRun, hs.1, ih _ hs.2]

/-- Whenever a detector event produces a result, the resulting state is
completed. -/
theorem detStep_result_completed (st : DetectorState) (e : DetEvent) (r : CmdResult)
    (h : (detStep st e).2 = some r) : (detStep st e).1.completed = true := by
  cases e with
  | chunk t d => simp [detStep] at h
  | idleFire t =>
      cases hc : st.completed
      · simp [detStep, hc, completeCommand]
      · simp [detStep, hc] at h
  | ceilingFire t =>
      cases hc : st.completed
      · simp [detStep, hc, completeCommand]
      · simp [detStep, hc] at h

/-- Any event sequence against the detector produces at most one
caller-visible result. -/
theorem detRun_results_le_one (es : List DetEvent) :
    ∀ st : DetectorState, (detRun st es).2.length ≤ 1 := by
  induction es with
  | nil => intro st; simp [detRun]
  | cons e es ih =>
      intro st
      cases hr : (detStep st e).2 with
      | none => simpa [detRun, hr] using ih (detStep st e).1
      | some r =>
          have hc := detStep_result_completed st e r hr
          have hz := detRun_completed_no_results es _ hc
          simp [detRun, hr, hz]

/-- Claim C1 (amended): for every whitelisted command the verdict has
`whitelisted = true`, `dangerous = false`, `safe = true`, no blocked reason
and no dangerous matches — but the suspicious scan still runs, so the
warnings list is exactly the suspicious warnings, not necessarily empty. -/
theorem C1_whitelisted_amended (reg : LoaderState) (c : String)
    (h : isWhitelisted reg c = true) :
    (analyzeCommand reg c).whitelisted = true
    ∧ (analyzeCommand reg c).dangerous = false
    ∧ (analyzeCommand reg c).safe = true
    ∧ (analyzeCommand reg c).blockedReason = none
    ∧ (analyzeCommand reg c).matchedDangerous = []
    ∧ (analyzeCommand reg c).warnings = (isSuspicious reg c).2.map warnLine := by
  have hd : isDangerous reg c = (false, []) := by simp [isDangerous, h]
  cases hs : (isSuspicious reg c).1
  · simp [analyzeCommand, h, hd, hs, isSuspicious_fst_false_snd hs]
  · simp [analyzeCommand, h, hd, hs]

/-- Claim C1 (counterexample): `sudo rm /tmp/ok` is whitelisted in
`wlRegistry` with `allowWhitelistOverride` on, yet its verdict carries a
non-empty warnings list (the suspicious `sudo_with_rm` warning), refuting
"warnings empty regardless of which suspicious patterns would match". -/
theorem C1_counterexample :
    wlRegistry.settings.allow_whitelist_override = true
    ∧ isWhitelisted wlRegistry "sudo rm /tmp/ok" = true
    ∧ (analyzeCommand wlRegistry "sudo rm /tmp/ok").whitelisted = true
    ∧ (analyzeCommand wlRegistry "sudo rm /tmp/ok").warnings =
        ["[MEDIUM] Using sudo with rm"]
    ∧ (analyzeCommand wlRegistry "sudo rm /tmp/ok").suspicious = true := by decide

/-- Claim C1 (witness): the amended theorem applied to the concrete
whitelisted command `sudo rm /tmp/ok`. -/
theorem C1_witness :
    isWhitelisted wlRegistry "sudo rm /tmp/ok" = true
    ∧ (analyzeCommand wlRegistry "sudo rm /tmp/ok").safe = true
    ∧ (analyzeCommand wlRegistry "sudo rm /tmp/ok").dangerous = false :=
  ⟨by decide, (C1_whitelisted_amended wlRegistry _ (by decide)).2.2.1,
   (C1_whitelisted_amended wlRegistry _ (by decide)).2.1⟩

/-- Claim C2 (code behaviour at the failing input): blocking `rm -rf /` on a
connected session with `blockDangerousCommands` on writes nothing, emits the
blocked event and fails with the verdict's blocked reason, but leaves the
session state — in particular the command history — completely unchanged:
no Command Record with `executed = false` is appended, even though
`getStatus()` counts blocked commands as history entries with
`executed = false`. -/
theorem C2_blocked_behavior :
    (analyzeCommand defaultRegistry "rm -rf /").dangerous = true
    ∧ connectedSession.blockDangerousCommands = true
    ∧ (executeCommandStart defaultRegistry connectedSession "rm -rf /" false 1000).error
        = some "Command blocked: Potentially destructive command detected"
    ∧ (executeCommandStart defaultRegistry connectedSession "rm -rf /" false 1000).written = []
    ∧ (executeCommandStart defaultRegistry connectedSession "rm -rf /" false 1000).events
        = [SessionEvent.blocked "rm -rf /"]
    ∧ (executeCommandStart defaultRegistry connectedSession "rm -rf /" false 1000).st
        = connectedSession := by decide

/-- Claim C3 (counterexample): at arming no idle timer exists
(`idleDeadline = none`), the only pending callback is the ceiling timer at
30000 ms, and with no output the completion fires there with duration
30000 — not after one idle-threshold interval (500 ms). -/
theorem C3_counterexample :
    (armDetector 0 30000).idleDeadline = none
    ∧ nextDeadline (armDetector 0 30000) = some 30000
    ∧ (completeCommand (armDetector 0 30000) 30000).2 =
        some { output := "", duration := 30000 }
    ∧ ¬(30000 = 0 + idleThreshold) := by decide

/-- Claim C3 (amended): a command producing no output completes only when
the ceiling timer (resolved `options.timeout`, default 30000 ms) fires,
because arming starts no idle timer; the idle timer is first set to
`t + 500` by the first output chunk at time `t`. -/
theorem C3_no_output_ceiling (t0 : Nat) (timeout : Option Nat) (t : Nat) (d : String) :
    (armDetector t0 (resolveTimeout timeout)).idleDeadline = none
    ∧ nextDeadline (armDetector t0 (resolveTimeout timeout)) =
        some (t0 + resolveTimeout timeout)
    ∧ (completeCommand (armDetector t0 (resolveTimeout timeout))
        (t0 + resolveTimeout timeout)).2 =
        some { output := "", duration := resolveTimeout timeout }
    ∧ (onChunk (armDetector t0 (resolveTimeout timeout)) t d).idleDeadline =
        some (t + idleThreshold)
    ∧ resolveTimeout none = 30000 ∧ idleThreshold = 500 := by
  refine ⟨rfl, rfl, ?_, rfl, rfl, rfl⟩
  simp [completeCommand, armDetector]

/-- Claim C4 (counterexample): the built-in default sources are not the
spec's bit-exact list (the fork-bomb literal is unescaped, and `/` is
written `\/`), and the defaults are compiled without the `i` flag, so
`MKFS` does not match the `^mkfs` default even though lowercase
`mkfs.ext4 ...` does — the defaults match case-sensitively. -/
theorem C4_counterexample :
    (loadDefaults initLoaderState).dangerousPatterns.map (fun p => p.src)
      ≠ specDefaultDangerousSrcs
    ∧ (loadDefaults initLoaderState).dangerousPatterns.all (fun p => p.ci) = false
    ∧ (isDangerous (loadDefaults initLoaderState) "MKFS").1 = false
    ∧ (isDangerous (loadDefaults initLoaderState) "mkfs.ext4 /dev/sda1").1 = true := by decide

/-- Claim C4 (amended): with no configuration source the registry holds
exactly seven dangerous and four suspicious built-in patterns with the
code's literal expressions (fork-bomb unescaped), zero whitelisted patterns,
and the documented default settings; every default is compiled WITHOUT the
`i` flag, i.e. matches case-sensitively. -/
theorem C4_defaults_exact (st : LoaderState) :
    (loadDefaults st).dangerousPatterns.map (fun p => (p.name, p.src, p.severity, p.ci)) =
      [("delete_root_filesystem", "^rm\\s+-rf\\s+\\/$", "critical", false),
       ("disk_write_operations", "^dd\\s+if=.*of=\\/dev\\/sd", "critical", false),
       ("format_filesystem", "^mkfs", "critical", false),
       ("fork_bomb", "^:()\x7b :|:& \x7d;:", "critical", false),
       ("chmod_777_root", "^chmod\\s+-R\\s+777\\s+\\/", "critical", false),
       ("curl_pipe_to_shell", "^curl.*\\|\\s*sh", "high", false),
       ("wget_pipe_to_shell", "^wget.*\\|\\s*sh", "high", false)]
    ∧ (loadDefaults st).suspiciousPatterns.map (fun p => (p.name, p.src, p.severity, p.ci)) =
      [("sudo_with_rm", "sudo\\s+rm", "medium", false),
       ("chmod_777", "chmod\\s+777", "medium", false),
       ("redirect_to_dev_null", ">\\s*\\/dev\\/null\\s+2>&1", "low", false),
       ("base64_decode", "base64.*decode", "low", false)]
    ∧ (loadDefaults st).whitelistedPatterns = []
    ∧ (loadDefaults st).settings =
        { block_dangerous_by_default := true, warn_on_suspicious := true,
          log_blocked_commands := true, case_sensitive := false,
          allow_whitelist_override := true } := ⟨rfl, rfl, rfl, rfl⟩

/-- Claim C5 (code behaviour at the failing input): loading a document with
`case_sensitive: true` into a fresh loader stores that setting but compiles
all patterns with the PREVIOUS settings (assigned after compilation), so the
single `^mkfs` pattern ends up with the `i` flag and `MKFS` is flagged
dangerous; only a second load of the same document compiles
case-sensitively. -/
theorem C5_stale_settings :
    (load initLoaderState (some csDoc)).settings.case_sensitive = true
    ∧ (load initLoaderState (some csDoc)).dangerousPatterns.map (fun p => p.ci) = [true]
    ∧ (isDangerous (load initLoaderState (some csDoc)) "MKFS").1 = true
    ∧ (load (load initLoaderState (some csDoc)) (some csDoc)).dangerousPatterns.map
        (fun p => p.ci) = [false] := by decide

/-- Claim C6: for every non-whitelisted command the dangerous and suspicious
queries return exactly the filter of their whole collections in registration
order (every matching pattern, no short-circuit), and the verdict's warnings
list is precisely one `[SEVERITY] description` line per matched pattern,
dangerous entries before suspicious entries. -/
theorem C6_matches_and_warnings (reg : LoaderState) (c : String)
    (h : isWhitelisted reg c = false) :
    (isDangerous reg c).2 = reg.dangerousPatterns.filter (fun p => regexTest p c)
    ∧ (isSuspicious reg c).2 = reg.suspiciousPatterns.filter (fun p => regexTest p c)
    ∧ (analyzeCommand reg c).warnings =
        (isDangerous reg c).2.map warnLine ++ (isSuspicious reg c).2.map warnLine := by
  refine ⟨by simp [isDangerous, h], rfl, ?_⟩
  cases hd : (isDangerous reg c).1
  · cases hs : (isSuspicious reg c).1
    · simp [analyzeCommand, h, hd, hs, isDangerous_fst_false_snd hd,
        isSuspicious_fst_false_snd hs]
    · simp [analyzeCommand, h, hd, hs, isDangerous_fst_false_snd hd]
  · cases hs : (isSuspicious reg c).1
    · simp [analyzeCommand, h, hd, hs, isSuspicious_fst_false_snd hs]
    · simp [analyzeCommand, h, hd, hs]

/-- Claim C6 (witness): on the default registry,
`sudo rm /tmp/a > /dev/null 2>&1` matches two suspicious patterns and its
warnings are exactly the two formatted lines in registration order. -/
theorem C6_witness :
    isWhitelisted defaultRegistry "sudo rm /tmp/a > /dev/null 2>&1" = false
    ∧ (analyzeCommand defaultRegistry "sudo rm /tmp/a > /dev/null 2>&1").warnings =
        ["[MEDIUM] Using sudo with rm", "[LOW] Hiding command output"]
    ∧ (analyzeCommand defaultRegistry "sudo rm /tmp/a > /dev/null 2>&1").warnings =
        (isDangerous defaultRegistry "sudo rm /tmp/a > /dev/null 2>&1").2.map warnLine ++
        (isSuspicious defaultRegistry "sudo rm /tmp/a > /dev/null 2>&1").2.map warnLine :=
  ⟨by decide, by decide,
   (C6_matches_and_warnings defaultRegistry _ (by decide)).2.2⟩

/-- Claim C7: `addPattern` is atomic on error — a non-compiling expression,
or a category outside dangerous/suspicious/whitelisted, yields `false` with
all three collections unmodified; a valid call appends the compiled pattern
to the named category's collection and returns `true`. -/
theorem C7_addPattern_atomic (st : LoaderState) (ty : String) (cfg : RawPattern) :
    (parseRegex cfg.pattern = none → addPattern st ty cfg = (false, st))
    ∧ (ty ≠ "dangerous" → ty ≠ "suspicious" → ty ≠ "whitelisted" →
        addPattern st ty cfg = (false, st))
    ∧ (∀ ast, parseRegex cfg.pattern = some ast →
        addPattern st "dangerous" cfg =
          (true, { st with dangerousPatterns :=
              st.dangerousPatterns ++ [mkCompiledAdd st.settings cfg ast] })
        ∧ addPattern st "suspicious" cfg =
          (true, { st with suspiciousPatterns :=
              st.suspiciousPatterns ++ [mkCompiledAdd st.settings cfg ast] })
        ∧ addPattern st "whitelisted" cfg =
          (true, { st with whitelistedPatterns :=
              st.whitelistedPatterns ++ [mkCompiledAdd st.settings cfg ast] })) := by
  refine ⟨fun h => by simp [addPattern, h], fun h1 h2 h3 => ?_, fun ast h => ?_⟩
  · unfold addPattern
    cases hp : parseRegex cfg.pattern <;> simp [h1, h2, h3]
  · refine ⟨?_, ?_, ?_⟩ <;> simp [addPattern, h]

/-- Claim C7 (witness): the unbalanced expression `(` fails and leaves the
default registry untouched; an unknown category fails likewise; adding
`^shutdown` as suspicious appends exactly its compiled pattern. -/
theorem C7_witness :
    addPattern defaultRegistry "dangerous" badRawPattern = (false, defaultRegistry)
    ∧ addPattern defaultRegistry "bogus_category" addRawPattern = (false, defaultRegistry)
    ∧ addPattern defaultRegistry "suspicious" addRawPattern =
        (true, { defaultRegistry with suspiciousPatterns :=
            defaultRegistry.suspiciousPatterns ++
              [mkCompiledAdd defaultRegistry.settings addRawPattern shutdownAst] }) :=
  ⟨(C7_addPattern_atomic defaultRegistry "dangerous" badRawPattern).1 (by decide),
   (C7_addPattern_atomic defaultRegistry "bogus_category" addRawPattern).2.1
     (by decide) (by decide) (by decide),
   ((C7_addPattern_atomic defaultRegistry "suspicious" addRawPattern).2.2
     shutdownAst (by decide)).2.1⟩

/-- Claim C8: on a session whose connected flag is false, `executeCommand`
fails immediately with the not-connected error; nothing is written to the
transport, no events are emitted, and the session state (history, output
buffer, toggles) is returned unchanged. -/
theorem C8_not_connected (reg : LoaderState) (st : SessionState) (c : String)
    (b : Bool) (ts : Nat) (h : st.connected = false) :
    executeCommandStart reg st c b ts =
      { st := st, events := [], written := [],
        error := some "SSH session not connected" } := by
  simp [executeCommandStart, h]

/-- Claim C8 (witness): the theorem applied to a freshly constructed
(disconnected) session and the command `rm -rf /`. -/
theorem C8_witness :
    executeCommandStart defaultRegistry initSession "rm -rf /" false 0 =
      { st := initSession, events := [], written := [],
        error := some "SSH session not connected" } :=
  C8_not_connected defaultRegistry initSession "rm -rf /" false 0 rfl

/-- Claim C9 (amended): completion is idempotent — completing sets the flag,
a second completion is a no-op producing no second result, at most one
result arises from any race of chunk/idle/ceiling events, late chunks leave
a completed state unchanged (the listener is detached), and the idle timer
is cleared; the ceiling timer, however, is NOT cancelled (`maxCancelled`
is preserved, never set) — its later firing is merely a guarded no-op. -/
theorem C9_completion_idempotent (st : DetectorState) (t t2 : Nat) (d : String)
    (es : List DetEvent) :
    ((completeCommand st t).1).completed = true
    ∧ (st.completed = true → completeCommand st t = (st, none))
    ∧ (st.completed = false →
        (completeCommand st t).1.idleDeadline = none
        ∧ (completeCommand st t).1.listenerAttached = false
        ∧ (completeCommand st t).2 =
            some { output := st.output, duration := t - st.startTime }
        ∧ onChunk (completeCommand st t).1 t2 d = (completeCommand st t).1)
    ∧ ((completeCommand st t).1).maxCancelled = st.maxCancelled
    ∧ (detRun (completeCommand st t).1 es).2 = []
    ∧ (detRun st es).2.length ≤ 1 := by
  have h1 : ((completeCommand st t).1).completed = true := by
    cases hc : st.completed <;> simp [completeCommand, hc]
  refine ⟨h1, ?_, ?_, ?_, detRun_completed_no_results es _ h1, detRun_results_le_one es st⟩
  · intro hc; simp [completeCommand, hc]
  · intro hc; simp [completeCommand, hc, onChunk]
  · cases hc : st.completed <;> simp [completeCommand, hc]

/-- Claim C9 (counterexample): after a real completion (one chunk, then
completion at 600 ms) the idle timer is cleared but the ceiling timer was
never cancelled: `maxCancelled` is still false and the 30000 ms deadline is
still scheduled, refuting "both timers are cancelled on completion". -/
theorem C9_counterexample :
    ((completeCommand (onChunk (armDetector 0 30000) 100 "hi") 600).1).idleDeadline = none
    ∧ (completeCommand (onChunk (armDetector 0 30000) 100 "hi") 600).2 =
        some { output := "hi", duration := 600 }
    ∧ ((completeCommand (onChunk (armDetector 0 30000) 100 "hi") 600).1).maxCancelled = false
    ∧ ((completeCommand (onChunk (armDetector 0 30000) 100 "hi") 600).1).maxDeadline = 30000 := by
  decide

/-- Claim C9 (witness): the amended theorem applied to a completed detector
(second completion is a no-op) and to a fresh armed detector (first
completion clears the idle timer). -/
theorem C9_witness :
    completeCommand doneDetector 700 = (doneDetector, none)
    ∧ (completeCommand (armDetector 0 30000) 500).1.idleDeadline = none :=
  ⟨(C9_completion_idempotent doneDetector 700 0 "" []).2.1 (by decide),
   ((C9_completion_idempotent (armDetector 0 30000) 500 0 "" []).2.2.1 (by decide)).1⟩

/-- Claim C10: for a positive limit, `getHistory`/`getOutput` return the
most recent `min limit length` entries in insertion order (a suffix of the
underlying list, which the pure embedding leaves untouched); for limit 0,
`slice(-0)` is `slice(0)` and the whole list is returned rather than zero
entries. -/
theorem C10_slice (st : SessionState) (limit : Nat) :
    (0 < limit →
      getHistory st limit = st.commandHistory.drop (st.commandHistory.length - limit)
      ∧ (getHistory st limit).length = min limit st.commandHistory.length
      ∧ List.IsSuffix (getHistory st limit) st.commandHistory
      ∧ getOutput st limit = st.outputBuffer.drop (st.outputBuffer.length - limit)
      ∧ (getOutput st limit).length = min limit st.outputBuffer.length
      ∧ List.IsSuffix (getOutput st limit) st.outputBuffer)
    ∧ (getHistory st 0 = st.commandHistory ∧ getOutput st 0 = st.outputBuffer) := by
  constructor
  · intro h
    have hne : limit ≠ 0 := Nat.pos_iff_ne_zero.mp h
    refine ⟨by simp [getHistory, jsSliceLast, hne], ?_, ?_,
      by simp [getOutput, jsSliceLast, hne], ?_, ?_⟩
    · simp [getHistory, jsSliceLast, hne, List.length_drop]; omega
    · simp only [getHistory, jsSliceLast, hne, if_false]
      exact List.drop_suffix _ _
    · simp [getOutput, jsSliceLast, hne, List.length_drop]; omega
    · simp only [getOutput, jsSliceLast, hne, if_false]
      exact List.drop_suffix _ _
  · exact ⟨rfl, rfl⟩

/-- Claim C10 (witness): the theorem applied to a session with three history
entries, at limit 2 and at limit 0. -/
theorem C10_witness :
    (0 : Nat) < 2
    ∧ getHistory demoSession 2 =
        demoSession.commandHistory.drop (demoSession.commandHistory.length - 2)
    ∧ getHistory demoSession 0 = demoSession.commandHistory :=
  ⟨by decide, ((C10_slice demoSession 2).1 (by decide)).1, (C10_slice demoSession 0).2.1⟩
